import Mathlib

/-!
# Faceted movie-browser coordinator: shallow embedding and verification

This file embeds the state coordinator of `src/App.jsx` (a React component)
into Lean 4 and proves/refutes the specification's claims about it.

Modelling conventions:

* Every `useState` hook of the `App` component becomes a field of `AppState`,
  with the same name and the component's initial value in `initState`.
* The network is explicit: issuing a `fetch` appends a `Req` (capturing the
  parameters the closure captured at issue time) to a pending list; a
  completion event (`Act.moviesOk` / `Act.dataOk` / `Act.personsOk` /
  `Act.fail`) consumes one pending request and runs the `.then` continuation
  (or, for `Act.fail`, skips it — the source installs no `.catch`).
* React batching/effect semantics: a user event applies all its `setState`
  calls, then each `useEffect` whose dependency list changed between the old
  and the new state fires once, in declaration order, reading the *new*
  state.  A function called synchronously inside an event handler (such as
  `fetchMovies(1)` inside `reset`) reads the *old* closure state.
* JS string operations are embedded as kernel-computable functions over
  `List Char`: `jsTrim` for `String.prototype.trim`, `strIncludes` for
  `String.prototype.includes`.  `String.length` in JS (UTF-16 units) is
  modelled by Lean's `String.length` (code points); they agree on the inputs
  considered here.
-/

/-- An option of a facet list: `{ id, name }` as produced by the `mapFn`
projections in `fetchData` / `fetchPersons`. -/
structure FacetOption where
  id : Nat
  name : String
deriving DecidableEq, Repr

/-- A raw person record from `GET /person/`; the source reads `p.id` and
`p.name_ru`. -/
structure Person where
  id : Nat
  name_ru : String
deriving DecidableEq, Repr

/-- A movie record.  The coordinator treats it as opaque (it is stored and
appended, never inspected), so only the identity field is modelled. -/
structure Movie where
  id : Nat
deriving DecidableEq, Repr

/-- Embedding of JS `String.prototype.trim` (strip leading and trailing
whitespace), written over `List Char` so the kernel can evaluate it. -/
def jsTrim (s : String) : String :=
  ⟨((s.data.dropWhile Char.isWhitespace).reverse.dropWhile Char.isWhitespace).reverse⟩

/-- `chPrefix a b = true` iff `a` is a prefix of `b` (kernel-computable). -/
def chPrefix : List Char → List Char → Bool
  | [], _ => true
  | _ :: _, [] => false
  | a :: as, b :: bs => a == b && chPrefix as bs

/-- `chInfix a b = true` iff `a` occurs contiguously inside `b`. -/
def chInfix (a : List Char) : List Char → Bool
  | [] => chPrefix a []
  | b :: bs => chPrefix a (b :: bs) || chInfix a bs

/-- Embedding of JS `String.prototype.includes`: `strIncludes hay sub` is
`hay.includes(sub)`. -/
def strIncludes (hay sub : String) : Bool :=
  chInfix sub.data hay.data

/-- Which eager-facet state a `fetchData` call targets (the `setter` argument:
`setGenres` or `setCountries`). -/
inductive DataTarget where
  | genres
  | countries
deriving DecidableEq, Repr

/-- Which person-facet state a `fetchPersons` call targets (the
`setter`/`setPageState`/`setMoreState` arguments). -/
inductive PTarget where
  | actors
  | directors
deriving DecidableEq, Repr

/-- The state of the `App` component: one field per `useState` hook, in
source order. -/
structure AppState where
  movies : List Movie
  search : String
  genres : List FacetOption
  countries : List FacetOption
  actors : List FacetOption
  directors : List FacetOption
  selectedGenre : Option Nat
  selectedCountry : Option Nat
  selectedYear : Option Nat
  selectedActor : Option Nat
  selectedDirector : Option Nat
  actorSearch : String
  directorSearch : String
  page : Nat
  hasMore : Bool
  genrePage : Nat
  countryPage : Nat
  actorPage : Nat
  directorPage : Nat
  hasMoreGenres : Bool
  hasMoreCountries : Bool
  hasMoreActors : Bool
  hasMoreDirectors : Bool
deriving DecidableEq, Repr

/-- The initial values of the `useState` hooks. -/
def initState : AppState where
  movies := []
  search := ""
  genres := []
  countries := []
  actors := []
  directors := []
  selectedGenre := none
  selectedCountry := none
  selectedYear := none
  selectedActor := none
  selectedDirector := none
  actorSearch := ""
  directorSearch := ""
  page := 1
  hasMore := false
  genrePage := 1
  countryPage := 1
  actorPage := 1
  directorPage := 1
  hasMoreGenres := true
  hasMoreCountries := true
  hasMoreActors := true
  hasMoreDirectors := true

/-- A pending network request, carrying the parameters captured by the fetch
closure at issue time.  `movies` carries the composed filter query (the page
number travels separately, as the `p` argument of `fetchMovies`); `data` is a
`fetchData` call (endpoint string plus target setter); `persons` is a
`fetchPersons` call (target setters, search term, page, append flag). -/
inductive Req where
  | movies (q : List (String × String)) (p : Nat) (append : Bool)
  | data (endpoint : String) (tgt : DataTarget) (p : Nat) (append : Bool)
  | persons (tgt : PTarget) (search : String) (p : Nat) (append : Bool)
deriving DecidableEq, Repr

/-- `true` exactly on result-list (`/movie/`) requests. -/
def Req.isMovies : Req → Bool
  | .movies _ _ _ => true
  | _ => false

/-- One `if (v) params.append(key, String(v))` step of `fetchMovies` for a
selected-id filter: JS truthiness drops both `null` and `0`. -/
def idParam (key : String) (v : Option Nat) : List (String × String) :=
  match v with
  | some n => if n = 0 then [] else [(key, toString n)]
  | none => []

/-- The filter part of the `URLSearchParams` built by `fetchMovies`, in the
order the source appends the keys.  (`fetchMovies` additionally appends
`page`, which the model carries as the separate `p` component of
`Req.movies`.) -/
def composeParams (s : AppState) : List (String × String) :=
  (if jsTrim s.search = "" then [] else [("search", jsTrim s.search)]) ++
  idParam "genres" s.selectedGenre ++
  idParam "countries" s.selectedCountry ++
  idParam "release_year" s.selectedYear ++
  idParam "cast" s.selectedActor ++
  idParam "directors" s.selectedDirector

/-- The requests issued by one `fetchPersons(type, search, page, append, …)`
call: the source returns early, issuing nothing, when `search.length < 3`. -/
def fetchPersonsReqs (tgt : PTarget) (search : String) (p : Nat) (append : Bool) :
    List Req :=
  if search.length < 3 then [] else [Req.persons tgt search p append]

/-- The dependency list of the movie-fetch effect:
`[search, selectedGenre, selectedCountry, selectedYear, selectedActor,
selectedDirector]`. -/
def movieDeps (s : AppState) :
    String × Option Nat × Option Nat × Option Nat × Option Nat × Option Nat :=
  (s.search, s.selectedGenre, s.selectedCountry, s.selectedYear,
   s.selectedActor, s.selectedDirector)

/-- The requests issued by the three dependency-driven effects after a state
change from `a` to `b`, in declaration order: the `actorSearch` effect, the
`directorSearch` effect, then the movie effect (which fetches page 1 without
append).  Each fires exactly when its dependency list changed and reads the
new state `b`. -/
def effectReqs (a b : AppState) : List Req :=
  (if a.actorSearch = b.actorSearch then []
   else fetchPersonsReqs .actors b.actorSearch 1 false) ++
  (if a.directorSearch = b.directorSearch then []
   else fetchPersonsReqs .directors b.directorSearch 1 false) ++
  (if movieDeps a = movieDeps b then []
   else [Req.movies (composeParams b) 1 false])

/-- User-interface events of the component.  Select events come from a
`Dropdown`'s option `onClick`, which for lazy dropdowns also clears the
search term (`onSearch('')`); `closeActorDropdown` / `closeDirectorDropdown`
are the outside-click handler of a lazy dropdown (`onSearch('')`);
`closeEagerDropdown` is the outside-click on a dropdown with no `onSearch`
(a pure no-op on App state).  The `loadMore*` events are the scroll-guard /
button paths, which only invoke the fetch when the corresponding `hasMore`
is true. -/
inductive Ev where
  | setTitleSearch (t : String)
  | selectGenre (i : Nat)
  | selectCountry (i : Nat)
  | selectYear (i : Nat)
  | selectActor (i : Nat)
  | selectDirector (i : Nat)
  | setActorSearch (t : String)
  | setDirectorSearch (t : String)
  | closeActorDropdown
  | closeDirectorDropdown
  | closeEagerDropdown
  | loadMoreMovies
  | loadMoreGenres
  | loadMoreCountries
  | loadMoreActors
  | loadMoreDirectors
  | reset
deriving DecidableEq, Repr

/-- The synchronous consequence of a user event: the new component state and
the network requests issued (handler-synchronous fetches first, then the
effects whose dependencies changed). -/
def applyEvent (s : AppState) : Ev → AppState × List Req
  | .setTitleSearch t =>
      let s2 := {s with search := t}
      (s2, effectReqs s s2)
  | .selectGenre i =>
      let s2 := {s with selectedGenre := some i}
      (s2, effectReqs s s2)
  | .selectCountry i =>
      let s2 := {s with selectedCountry := some i}
      (s2, effectReqs s s2)
  | .selectYear i =>
      let s2 := {s with selectedYear := some i}
      (s2, effectReqs s s2)
  | .selectActor i =>
      let s2 := {s with selectedActor := some i, actorSearch := ""}
      (s2, effectReqs s s2)
  | .selectDirector i =>
      let s2 := {s with selectedDirector := some i, directorSearch := ""}
      (s2, effectReqs s s2)
  | .setActorSearch t =>
      let s2 := {s with actorSearch := t}
      (s2, effectReqs s s2)
  | .setDirectorSearch t =>
      let s2 := {s with directorSearch := t}
      (s2, effectReqs s s2)
  | .closeActorDropdown =>
      let s2 := {s with actorSearch := ""}
      (s2, effectReqs s s2)
  | .closeDirectorDropdown =>
      let s2 := {s with directorSearch := ""}
      (s2, effectReqs s s2)
  | .closeEagerDropdown => (s, [])
  | .loadMoreMovies =>
      (s, if s.hasMore then [Req.movies (composeParams s) (s.page + 1) true] else [])
  | .loadMoreGenres =>
      (s, if s.hasMoreGenres then [Req.data "genre" .genres (s.genrePage + 1) true] else [])
  | .loadMoreCountries =>
      (s, if s.hasMoreCountries then [Req.data "country" .countries (s.countryPage + 1) true] else [])
  | .loadMoreActors =>
      (s, if s.hasMoreActors then fetchPersonsReqs .actors s.actorSearch (s.actorPage + 1) true else [])
  | .loadMoreDirectors =>
      (s, if s.hasMoreDirectors then fetchPersonsReqs .directors s.directorSearch (s.directorPage + 1) true else [])
  | .reset =>
      let s2 := {s with search := "", selectedGenre := none, selectedCountry := none,
                        selectedYear := none, selectedActor := none, selectedDirector := none,
                        actorSearch := "", directorSearch := ""}
      (s2, Req.movies (composeParams s) 1 false :: effectReqs s s2)

/-- The `.then` continuation of `fetchMovies`: replace or append `movies`,
set `hasMore` from `!!data.next`, set `page` to the captured page argument.
No staleness check of any kind is performed. -/
def applyMoviesResp (s : AppState) (p : Nat) (append : Bool)
    (results : List Movie) (next : Bool) : AppState :=
  {s with movies := if append then s.movies ++ results else results,
          hasMore := next,
          page := p}

/-- The `.then` continuation of `fetchData`: apply the setter (replace or
append through `mapFn`), then update the pagination bookkeeping chosen by
substring-matching on the endpoint name (`endpoint.includes('genre')` /
`endpoint.includes('country')`). -/
def applyDataResp (s : AppState) (endpoint : String) (tgt : DataTarget) (p : Nat)
    (append : Bool) (results : List FacetOption) (next : Bool) : AppState :=
  let mapped := results.map (fun i => ({id := i.id, name := i.name} : FacetOption))
  let s2 :=
    match tgt with
    | .genres => {s with genres := if append then s.genres ++ mapped else mapped}
    | .countries => {s with countries := if append then s.countries ++ mapped else mapped}
  if strIncludes endpoint "genre" then
    {s2 with hasMoreGenres := next, genrePage := p}
  else if strIncludes endpoint "country" then
    {s2 with hasMoreCountries := next, countryPage := p}
  else s2

/-- The `.then` continuation of `fetchPersons`: apply the setter (replace or
append, projecting `{id, name_ru}` to an option), set the has-more flag from
`!!data.next`, set the page state to the captured page. -/
def applyPersonsResp (s : AppState) (tgt : PTarget) (p : Nat) (append : Bool)
    (results : List Person) (next : Bool) : AppState :=
  let mapped := results.map (fun q => ({id := q.id, name := q.name_ru} : FacetOption))
  match tgt with
  | .actors => {s with actors := if append then s.actors ++ mapped else mapped,
                       hasMoreActors := next, actorPage := p}
  | .directors => {s with directors := if append then s.directors ++ mapped else mapped,
                          hasMoreDirectors := next, directorPage := p}

/-- A system configuration: component state plus in-flight requests. -/
structure Sys where
  st : AppState
  pending : List Req
deriving DecidableEq, Repr

/-- Atomic actions of the event-driven system: a user event, a successful
completion of one pending request of each kind (carrying the service's
response `{results, next}`, with `next` modelling `!!data.next`), or a failed
completion (the source has no `.catch`, so the continuation is simply
skipped). -/
inductive Act where
  | user (e : Ev)
  | moviesOk (q : List (String × String)) (p : Nat) (append : Bool)
      (results : List Movie) (next : Bool)
  | dataOk (endpoint : String) (tgt : DataTarget) (p : Nat) (append : Bool)
      (results : List FacetOption) (next : Bool)
  | personsOk (tgt : PTarget) (search : String) (p : Nat) (append : Bool)
      (results : List Person) (next : Bool)
  | fail (r : Req)
deriving DecidableEq, Repr

/-- One step of the system.  Completion actions only apply when the matching
request is pending (one pending copy is consumed); otherwise they are no-ops. -/
def stepAct (c : Sys) : Act → Sys
  | .user e =>
      let r := applyEvent c.st e
      ⟨r.1, c.pending ++ r.2⟩
  | .moviesOk q p append results next =>
      let r := Req.movies q p append
      if r ∈ c.pending then
        ⟨applyMoviesResp c.st p append results next, c.pending.erase r⟩
      else c
  | .dataOk endpoint tgt p append results next =>
      let r := Req.data endpoint tgt p append
      if r ∈ c.pending then
        ⟨applyDataResp c.st endpoint tgt p append results next, c.pending.erase r⟩
      else c
  | .personsOk tgt search p append results next =>
      let r := Req.persons tgt search p append
      if r ∈ c.pending then
        ⟨applyPersonsResp c.st tgt p append results next, c.pending.erase r⟩
      else c
  | .fail r =>
      if r ∈ c.pending then ⟨c.st, c.pending.erase r⟩ else c

/-- Run a sequence of actions. -/
def runActs (c : Sys) (acts : List Act) : Sys :=
  acts.foldl stepAct c

/-- The mount configuration: initial hook values, plus the requests issued by
the mount run of the effects, in declaration order — `fetchData('genre', …)`,
`fetchData('country', …)`, the two person effects (which issue nothing for
the empty term), and `fetchMovies(1)` for the empty query. -/
def mountSys : Sys where
  st := initState
  pending :=
    [Req.data "genre" .genres 1 false, Req.data "country" .countries 1 false] ++
    fetchPersonsReqs .actors "" 1 false ++
    fetchPersonsReqs .directors "" 1 false ++
    [Req.movies (composeParams initState) 1 false]

/-- The facet list targeted by a `fetchData` setter. -/
def dataList (tgt : DataTarget) (s : AppState) : List FacetOption :=
  match tgt with
  | .genres => s.genres
  | .countries => s.countries

/-- The facet list targeted by a `fetchPersons` setter. -/
def personsList (tgt : PTarget) (s : AppState) : List FacetOption :=
  match tgt with
  | .actors => s.actors
  | .directors => s.directors

/-- `true` unless the request is a result-list fetch that is not a page-1
replacement. -/
def movieReqFresh : Req → Bool
  | .movies _ p append => p == 1 && append == false
  | _ => true

/-- Key lookup in an association list of query parameters (first match). -/
def qlookup (k : String) : List (String × String) → Option String
  | [] => none
  | (k2, v) :: rest => if k2 = k then some v else qlookup k rest

theorem qlookup_append (k : String) (l1 l2 : List (String × String)) :
    qlookup k (l1 ++ l2) = (qlookup k l1).or (qlookup k l2) := by
  induction l1 with
  | nil => simp [qlookup]
  | cons kv rest ih =>
    obtain ⟨k2, v⟩ := kv
    by_cases h : k2 = k <;> simp [qlookup, h, ih]

theorem qlookup_idParam_ne (k k2 : String) (h : k2 ≠ k) (v : Option Nat) :
    qlookup k (idParam k2 v) = none := by
  cases v with
  | none => simp [idParam, qlookup]
  | some n =>
    by_cases h0 : n = 0 <;> simp [idParam, qlookup, h0, h]

theorem qlookup_idParam_self (k : String) (v : Option Nat) :
    qlookup k (idParam k v) =
      v.bind (fun n => if n = 0 then none else some (toString n)) := by
  cases v with
  | none => simp [idParam, qlookup]
  | some n =>
    by_cases h0 : n = 0 <;> simp [idParam, qlookup, h0]

theorem applyDataResp_list (s : AppState) (ep : String) (tgt : DataTarget) (p : Nat)
    (a : Bool) (results : List FacetOption) (next : Bool) :
    dataList tgt (applyDataResp s ep tgt p a results next)
      = if a then dataList tgt s ++ results.map (fun i => ⟨i.id, i.name⟩)
        else results.map (fun i => ⟨i.id, i.name⟩) := by
  cases tgt <;> cases a <;>
    simp only [applyDataResp, dataList] <;>
    split <;> (try split) <;> simp

theorem mountSys_pending_eq : mountSys.pending =
    [Req.data "genre" .genres 1 false, Req.data "country" .countries 1 false,
     Req.movies [] 1 false] := by decide

/-- C1, counterexample.  A result fetch for title search "A" is in flight;
the user changes it to "B"; B's response arrives and is applied; then A's
stale response arrives.  The source applies it unconditionally, so the final
movie list is A's result set even though the current query is "B" — the
stale response is *not* discarded and *does* overwrite the newer request's
state. -/
theorem C1_counterexample :
    (runActs mountSys
      [Act.user (Ev.setTitleSearch "A"), Act.user (Ev.setTitleSearch "B"),
       Act.moviesOk [("search", "B")] 1 false [⟨2⟩] false,
       Act.moviesOk [("search", "A")] 1 false [⟨1⟩] false]).st.search = "B" ∧
    (runActs mountSys
      [Act.user (Ev.setTitleSearch "A"), Act.user (Ev.setTitleSearch "B"),
       Act.moviesOk [("search", "B")] 1 false [⟨2⟩] false,
       Act.moviesOk [("search", "A")] 1 false [⟨1⟩] false]).st.movies = [⟨1⟩] := by
  decide

/-- C1, amended.  No stale-response guard exists: completing any pending
page-1 replacing request overwrites the source's list with that response's
own results, regardless of whether a newer request for the same source has
been issued or even already applied — arrival order, not request order,
determines the final state. -/
theorem C1_amended_arrival_order_wins (c : Sys) :
    (∀ (q : List (String × String)) (results : List Movie) (next : Bool),
      Req.movies q 1 false ∈ c.pending →
        (stepAct c (Act.moviesOk q 1 false results next)).st.movies = results) ∧
    (∀ (tgt : PTarget) (srch : String) (results : List Person) (next : Bool),
      Req.persons tgt srch 1 false ∈ c.pending →
        personsList tgt (stepAct c (Act.personsOk tgt srch 1 false results next)).st
          = results.map (fun q => ⟨q.id, q.name_ru⟩)) ∧
    (∀ (ep : String) (tgt : DataTarget) (results : List FacetOption) (next : Bool),
      Req.data ep tgt 1 false ∈ c.pending →
        dataList tgt (stepAct c (Act.dataOk ep tgt 1 false results next)).st
          = results.map (fun i => ⟨i.id, i.name⟩)) := by
  refine ⟨?_, ?_, ?_⟩
  · intro q results next h
    simp [stepAct, h, applyMoviesResp]
  · intro tgt srch results next h
    cases tgt <;> simp [stepAct, h, applyPersonsResp, personsList]
  · intro ep tgt results next h
    simp [stepAct, h, applyDataResp_list]

/-- C1, witness for the amended theorem at concrete inputs, one per source
kind. -/
theorem C1_amended_witness :
    (stepAct mountSys (Act.moviesOk [] 1 false [⟨9⟩] false)).st.movies = [⟨9⟩] ∧
    personsList .actors
      (stepAct (stepAct mountSys (Act.user (Ev.setActorSearch "ann")))
        (Act.personsOk .actors "ann" 1 false [⟨4, "Anna"⟩] false)).st
      = [⟨4, "Anna"⟩] ∧
    dataList .genres
      (stepAct mountSys (Act.dataOk "genre" .genres 1 false [⟨3, "Drama"⟩] true)).st
      = [⟨3, "Drama"⟩] :=
  ⟨(C1_amended_arrival_order_wins mountSys).1 [] [⟨9⟩] false (by decide),
   (C1_amended_arrival_order_wins
       (stepAct mountSys (Act.user (Ev.setActorSearch "ann")))).2.1
     .actors "ann" [⟨4, "Anna"⟩] false (by decide),
   (C1_amended_arrival_order_wins mountSys).2.2 "genre" .genres [⟨3, "Drama"⟩] true
     (by decide)⟩

/-- C6, counterexample.  A failed result fetch leaves the component state
bit-for-bit identical to what it was before the failure.  The rendered UI is
a pure function of this state, and the state has no error field at all, so
no "scoped, transient error state" is surfaced to the user: the failure is
silently swallowed (the source installs no `.catch`). -/
theorem C6_counterexample :
    (stepAct mountSys (Act.fail (Req.movies [] 1 false))).st = mountSys.st := by
  decide

/-- C6, amended.  A failed fetch of any kind leaves the entire prior
component state unchanged (no partial replacement — this half of the claim
holds), but nothing is surfaced: there is no error state to transition to,
and the post-failure state is indistinguishable from the pre-failure one. -/
theorem C6_amended_failure_is_silent (c : Sys) (r : Req) :
    (stepAct c (Act.fail r)).st = c.st := by
  simp only [stepAct]
  split <;> rfl

/-- C7, counterexample.  With page-2 of the genre facet resolving twice (two
overlapping `loadMore` calls made before either response lands, both
fetching `genrePage + 1 = 2`), the page's single option is appended twice;
performing the sequence once yields the singleton.  `loadMore` is therefore
not idempotent: already-present items are duplicated. -/
theorem C7_counterexample :
    (runActs mountSys [Act.user Ev.loadMoreGenres, Act.user Ev.loadMoreGenres,
        Act.dataOk "genre" .genres 2 true [⟨7, "Drama"⟩] false,
        Act.dataOk "genre" .genres 2 true [⟨7, "Drama"⟩] false]).st.genres
      = [⟨7, "Drama"⟩, ⟨7, "Drama"⟩] ∧
    (runActs mountSys [Act.user Ev.loadMoreGenres,
        Act.dataOk "genre" .genres 2 true [⟨7, "Drama"⟩] false]).st.genres
      = [⟨7, "Drama"⟩] ∧
    ([⟨7, "Drama"⟩, ⟨7, "Drama"⟩] : List FacetOption) ≠ [⟨7, "Drama"⟩] := by
  decide

/-- C7, amended.  Load-more appends are unconditional, with no
de-duplication, for every facet (genre, country, actor, director) and for
the movie list: applying the same append-mode response twice appends the
page's results twice, so two `loadMore` calls that resolve the same page
number yield the once-result with that page's items appended a second
time — equal to performing it once only when the resolved page is empty. -/
theorem C7_amended_append_duplicates (s : AppState) (ep ep2 : String) (p : Nat)
    (results : List FacetOption) (presults : List Person) (mresults : List Movie)
    (next next2 : Bool) :
    (applyDataResp (applyDataResp s ep .genres p true results next)
        ep .genres p true results next2).genres
      = s.genres ++ results.map (fun i => ⟨i.id, i.name⟩)
          ++ results.map (fun i => ⟨i.id, i.name⟩) ∧
    (applyDataResp (applyDataResp s ep2 .countries p true results next)
        ep2 .countries p true results next2).countries
      = s.countries ++ results.map (fun i => ⟨i.id, i.name⟩)
          ++ results.map (fun i => ⟨i.id, i.name⟩) ∧
    (∀ tgt : PTarget,
      personsList tgt
        (applyPersonsResp (applyPersonsResp s tgt p true presults next)
          tgt p true presults next2)
        = personsList tgt s ++ presults.map (fun q => ⟨q.id, q.name_ru⟩)
            ++ presults.map (fun q => ⟨q.id, q.name_ru⟩)) ∧
    (applyMoviesResp (applyMoviesResp s p true mresults next)
        p true mresults next2).movies
      = s.movies ++ mresults ++ mresults := by
  refine ⟨?_, ?_, ?_, by simp [applyMoviesResp]⟩
  · have h1 := applyDataResp_list s ep .genres p true results next
    have h2 := applyDataResp_list (applyDataResp s ep .genres p true results next)
      ep .genres p true results next2
    simp only [dataList, if_true] at h1 h2
    simp [h1, h2]
  · have h1 := applyDataResp_list s ep2 .countries p true results next
    have h2 := applyDataResp_list (applyDataResp s ep2 .countries p true results next)
      ep2 .countries p true results next2
    simp only [dataList, if_true] at h1 h2
    simp [h1, h2]
  · intro tgt
    cases tgt <;> simp [applyPersonsResp, personsList]

/-- C8, counterexample.  At mount, `hasMoreActors` is initialized to `true`
while the actor search term is empty; the scroll-to-bottom guard therefore
invokes the actor `loadMore`, but `fetchPersons` returns early on the short
term and issues no request — contradicting "when hasMore is true it fetches
page + 1 with the current search term". -/
theorem C8_counterexample :
    initState.hasMoreActors = true ∧
    (applyEvent initState Ev.loadMoreActors).2 = [] := by
  decide

/-- C8, amended.  `loadMore` issues no fetch and changes no state when the
source's `hasMore` is false; when `hasMore` is true it fetches `page + 1`
with the current search term in append mode — except that the lazy-search
facets (actor, director) issue no fetch when the current search term is
shorter than 3 characters.  On success, append-mode responses are appended
to the existing items. -/
theorem C8_amended_loadMore (s : AppState) :
    applyEvent s Ev.loadMoreMovies
      = (s, if s.hasMore then [Req.movies (composeParams s) (s.page + 1) true] else []) ∧
    applyEvent s Ev.loadMoreGenres
      = (s, if s.hasMoreGenres then [Req.data "genre" .genres (s.genrePage + 1) true] else []) ∧
    applyEvent s Ev.loadMoreCountries
      = (s, if s.hasMoreCountries then [Req.data "country" .countries (s.countryPage + 1) true] else []) ∧
    applyEvent s Ev.loadMoreActors
      = (s, if s.hasMoreActors ∧ 3 ≤ s.actorSearch.length
            then [Req.persons .actors s.actorSearch (s.actorPage + 1) true] else []) ∧
    applyEvent s Ev.loadMoreDirectors
      = (s, if s.hasMoreDirectors ∧ 3 ≤ s.directorSearch.length
            then [Req.persons .directors s.directorSearch (s.directorPage + 1) true] else []) ∧
    (∀ (p : Nat) (results : List Movie) (next : Bool),
      (applyMoviesResp s p true results next).movies = s.movies ++ results) ∧
    (∀ (tgt : PTarget) (p : Nat) (results : List Person) (next : Bool),
      personsList tgt (applyPersonsResp s tgt p true results next)
        = personsList tgt s ++ results.map (fun q => ⟨q.id, q.name_ru⟩)) := by
  refine ⟨by simp [applyEvent], by simp [applyEvent], by simp [applyEvent], ?_, ?_, ?_, ?_⟩
  · simp only [applyEvent, fetchPersonsReqs]
    rcases hm : s.hasMoreActors <;>
      rcases hl : decide (s.actorSearch.length < 3) <;>
      simp_all
  · simp only [applyEvent, fetchPersonsReqs]
    rcases hm : s.hasMoreDirectors <;>
      rcases hl : decide (s.directorSearch.length < 3) <;>
      simp_all
  · intro p results next
    simp [applyMoviesResp]
  · intro tgt p results next
    cases tgt <;> simp [applyPersonsResp, personsList]

theorem mem_idParam (k : String) (v : Option Nat) (kv : String × String)
    (h : kv ∈ idParam k v) : kv.1 = k := by
  cases v with
  | none => simp [idParam] at h
  | some n =>
    by_cases h0 : n = 0 <;> simp [idParam, h0] at h
    simp [h]

/-- C2, counterexample.  After `setTitleSearch(" ")` the title-search
selection is non-empty (it is the one-space string), yet the composed query
contains no `search` key: `fetchMovies` guards on `search.trim()`, so a
whitespace-only title search is dropped (and a non-trivial search value
would be sent trimmed, not verbatim). -/
theorem C2_counterexample :
    (applyEvent initState (Ev.setTitleSearch " ")).1.search ≠ "" ∧
    qlookup "search" (composeParams (applyEvent initState (Ev.setTitleSearch " ")).1)
      = none := by
  decide

/-- C2, amended.  The composed movie query contains exactly the filter keys
whose selection is truthy in the JS sense — an id selection that is non-null
(and non-zero), a title search that is non-empty after trimming — each id
mapped to its decimal string and the title search mapped to its *trimmed*
value; it contains no other keys, hence no key for a cleared selection. -/
theorem C2_amended_query_exact (s : AppState) :
    qlookup "search" (composeParams s)
      = (if jsTrim s.search = "" then none else some (jsTrim s.search)) ∧
    qlookup "genres" (composeParams s)
      = s.selectedGenre.bind (fun n => if n = 0 then none else some (toString n)) ∧
    qlookup "countries" (composeParams s)
      = s.selectedCountry.bind (fun n => if n = 0 then none else some (toString n)) ∧
    qlookup "release_year" (composeParams s)
      = s.selectedYear.bind (fun n => if n = 0 then none else some (toString n)) ∧
    qlookup "cast" (composeParams s)
      = s.selectedActor.bind (fun n => if n = 0 then none else some (toString n)) ∧
    qlookup "directors" (composeParams s)
      = s.selectedDirector.bind (fun n => if n = 0 then none else some (toString n)) ∧
    (composeParams s).all
      (fun kv => ["search", "genres", "countries", "release_year", "cast",
        "directors"].contains kv.1) = true := by
  refine ⟨?_, ?_, ?_, ?_, ?_, ?_, ?_⟩
  · simp only [composeParams, qlookup_append,
      qlookup_idParam_ne "search" "genres" (by decide),
      qlookup_idParam_ne "search" "countries" (by decide),
      qlookup_idParam_ne "search" "release_year" (by decide),
      qlookup_idParam_ne "search" "cast" (by decide),
      qlookup_idParam_ne "search" "directors" (by decide)]
    split <;> simp [qlookup]
  · simp only [composeParams, qlookup_append,
      qlookup_idParam_ne "genres" "countries" (by decide),
      qlookup_idParam_ne "genres" "release_year" (by decide),
      qlookup_idParam_ne "genres" "cast" (by decide),
      qlookup_idParam_ne "genres" "directors" (by decide),
      qlookup_idParam_self]
    split <;> simp [qlookup]
  · simp only [composeParams, qlookup_append,
      qlookup_idParam_ne "countries" "genres" (by decide),
      qlookup_idParam_ne "countries" "release_year" (by decide),
      qlookup_idParam_ne "countries" "cast" (by decide),
      qlookup_idParam_ne "countries" "directors" (by decide),
      qlookup_idParam_self]
    split <;> simp [qlookup]
  · simp only [composeParams, qlookup_append,
      qlookup_idParam_ne "release_year" "genres" (by decide),
      qlookup_idParam_ne "release_year" "countries" (by decide),
      qlookup_idParam_ne "release_year" "cast" (by decide),
      qlookup_idParam_ne "release_year" "directors" (by decide),
      qlookup_idParam_self]
    split <;> simp [qlookup]
  · simp only [composeParams, qlookup_append,
      qlookup_idParam_ne "cast" "genres" (by decide),
      qlookup_idParam_ne "cast" "countries" (by decide),
      qlookup_idParam_ne "cast" "release_year" (by decide),
      qlookup_idParam_ne "cast" "directors" (by decide),
      qlookup_idParam_self]
    split <;> simp [qlookup]
  · simp only [composeParams, qlookup_append,
      qlookup_idParam_ne "directors" "genres" (by decide),
      qlookup_idParam_ne "directors" "countries" (by decide),
      qlookup_idParam_ne "directors" "release_year" (by decide),
      qlookup_idParam_ne "directors" "cast" (by decide),
      qlookup_idParam_self]
    split <;> simp [qlookup]
  · rw [List.all_eq_true]
    intro kv h
    simp only [composeParams, List.mem_append] at h
    rcases h with ((((h | h) | h) | h) | h) | h
    · rcases kv with ⟨k, v⟩
      split at h <;> simp_all
    · have := mem_idParam _ _ _ h
      simp [this]
    · have := mem_idParam _ _ _ h
      simp [this]
    · have := mem_idParam _ _ _ h
      simp [this]
    · have := mem_idParam _ _ _ h
      simp [this]
    · have := mem_idParam _ _ _ h
      simp [this]

theorem fetchPersonsReqs_empty (tgt : PTarget) (p : Nat) (a : Bool) :
    fetchPersonsReqs tgt "" p a = [] := rfl

theorem effectReqs_fresh (a b : AppState) :
    (effectReqs a b).all movieReqFresh = true := by
  simp only [effectReqs, fetchPersonsReqs, List.all_append]
  split_ifs <;> simp [movieReqFresh]

/-- C3.  Any user event that changes the movie-effect dependencies (a facet
selection or the title search) issues a fresh movie fetch for page 1 of the
newly composed query in replace mode; every movie request such an event
issues is a page-1 replace (never an append); and completing a page-1
replace request overwrites the items wholesale and sets the current page to
1. -/
theorem C3_fresh_page1_on_change (s : AppState) (e : Ev)
    (h : movieDeps (applyEvent s e).1 ≠ movieDeps s) :
    Req.movies (composeParams (applyEvent s e).1) 1 false ∈ (applyEvent s e).2 ∧
    ((applyEvent s e).2.all movieReqFresh = true) ∧
    (∀ (s2 : AppState) (results : List Movie) (next : Bool),
      (applyMoviesResp s2 1 false results next).movies = results ∧
      (applyMoviesResp s2 1 false results next).page = 1) := by
  refine ⟨?_, ?_, fun s2 results next => ⟨by simp [applyMoviesResp], by simp [applyMoviesResp]⟩⟩
  · cases e <;>
      first
        | exact absurd rfl h
        | (simp only [applyEvent] at h ⊢
           simp [effectReqs, fetchPersonsReqs, Ne.symm h])
  · cases e <;>
      first
        | exact absurd rfl h
        | simp [applyEvent, List.all_cons, movieReqFresh, effectReqs_fresh]

/-- C3, witness: selecting genre 5 from the mount state. -/
theorem C3_witness :
    Req.movies (composeParams (applyEvent initState (Ev.selectGenre 5)).1) 1 false
        ∈ (applyEvent initState (Ev.selectGenre 5)).2 ∧
    ((applyEvent initState (Ev.selectGenre 5)).2.all movieReqFresh = true) ∧
    (∀ (s2 : AppState) (results : List Movie) (next : Bool),
      (applyMoviesResp s2 1 false results next).movies = results ∧
      (applyMoviesResp s2 1 false results next).page = 1) :=
  C3_fresh_page1_on_change initState (Ev.selectGenre 5) (by decide)

/-- C4, counterexample.  With genre 5 selected, `reset()` issues *two* page-1
result fetches, and the first one still carries the pre-reset filter
`genres=5`: the handler-synchronous `fetchMovies(1)` reads the stale closure
(the state setters have not re-rendered yet), and the dependency effect then
issues the second, unfiltered fetch.  This contradicts "exactly one composed
query page-1 result fetch ... the fetch carries no filter keys". -/
theorem C4_counterexample :
    (applyEvent (applyEvent initState (Ev.selectGenre 5)).1 Ev.reset).2
      = [Req.movies [("genres", "5")] 1 false, Req.movies [] 1 false] ∧
    (applyEvent (applyEvent initState (Ev.selectGenre 5)).1 Ev.reset).2.length ≠ 1 := by
  decide

/-- C4, amended.  `reset()` clears every selection and every title/facet
search string, and issues: first, one page-1 replace fetch that still
carries the *pre-reset* composed query (stale closure); then, iff the reset
actually changed a selection or the title search, one more page-1 replace
fetch carrying no filter keys (the cleared state composes to the empty
query).  When nothing changed, exactly the one (unfiltered) fetch is
issued. -/
theorem C4_amended_reset (s : AppState) :
    (applyEvent s Ev.reset).1.search = "" ∧
    (applyEvent s Ev.reset).1.selectedGenre = none ∧
    (applyEvent s Ev.reset).1.selectedCountry = none ∧
    (applyEvent s Ev.reset).1.selectedYear = none ∧
    (applyEvent s Ev.reset).1.selectedActor = none ∧
    (applyEvent s Ev.reset).1.selectedDirector = none ∧
    (applyEvent s Ev.reset).1.actorSearch = "" ∧
    (applyEvent s Ev.reset).1.directorSearch = "" ∧
    composeParams (applyEvent s Ev.reset).1 = [] ∧
    (applyEvent s Ev.reset).2
      = Req.movies (composeParams s) 1 false ::
        (if movieDeps s = movieDeps (applyEvent s Ev.reset).1 then []
         else [Req.movies [] 1 false]) := by
  refine ⟨rfl, rfl, rfl, rfl, rfl, rfl, rfl, rfl, rfl, ?_⟩
  simp [applyEvent, effectReqs, fetchPersonsReqs, composeParams, idParam, jsTrim]

/-- C5.  For each lazy-search facet, assuming only that the new term differs
from *that facet's* current term (which a DOM change event guarantees —
re-setting an identical value fires no effect): setting a search term
shorter than 3 characters issues no request at all and leaves the facet's
options and has-more flag untouched; setting a term of length at least 3
issues exactly one page-1 replace request for that term, and the success of
a page-1 replace request overwrites the facet's options wholesale with the
mapped response. -/
theorem C5_lazy_search (s : AppState) (t : String) :
    (t ≠ s.actorSearch →
      (t.length < 3 →
        (applyEvent s (Ev.setActorSearch t)).2 = [] ∧
        (applyEvent s (Ev.setActorSearch t)).1.actors = s.actors ∧
        (applyEvent s (Ev.setActorSearch t)).1.hasMoreActors = s.hasMoreActors) ∧
      (3 ≤ t.length →
        (applyEvent s (Ev.setActorSearch t)).2 = [Req.persons .actors t 1 false])) ∧
    (t ≠ s.directorSearch →
      (t.length < 3 →
        (applyEvent s (Ev.setDirectorSearch t)).2 = [] ∧
        (applyEvent s (Ev.setDirectorSearch t)).1.directors = s.directors ∧
        (applyEvent s (Ev.setDirectorSearch t)).1.hasMoreDirectors = s.hasMoreDirectors) ∧
      (3 ≤ t.length →
        (applyEvent s (Ev.setDirectorSearch t)).2 = [Req.persons .directors t 1 false])) ∧
    (∀ (s2 : AppState) (results : List Person) (next : Bool),
      (applyPersonsResp s2 .actors 1 false results next).actors
        = results.map (fun q => ⟨q.id, q.name_ru⟩) ∧
      (applyPersonsResp s2 .directors 1 false results next).directors
        = results.map (fun q => ⟨q.id, q.name_ru⟩)) := by
  refine ⟨?_, ?_,
    fun s2 results next => ⟨by simp [applyPersonsResp], by simp [applyPersonsResp]⟩⟩
  · intro hA
    constructor
    · intro hlt
      refine ⟨?_, rfl, rfl⟩
      simp [applyEvent, effectReqs, fetchPersonsReqs, Ne.symm hA, hlt, movieDeps]
    · intro hge
      have hlt : ¬ t.length < 3 := Nat.not_lt.mpr hge
      simp [applyEvent, effectReqs, fetchPersonsReqs, Ne.symm hA, hlt, movieDeps]
  · intro hD
    constructor
    · intro hlt
      refine ⟨?_, rfl, rfl⟩
      simp [applyEvent, effectReqs, fetchPersonsReqs, Ne.symm hD, hlt, movieDeps]
    · intro hge
      have hlt : ¬ t.length < 3 := Nat.not_lt.mpr hge
      simp [applyEvent, effectReqs, fetchPersonsReqs, Ne.symm hD, hlt, movieDeps]

/-- C5, witness: the spec's own scenario — typing "an" (2 chars) into the
actor search issues no fetch; typing "ann" (3 chars) issues exactly one
page-1 fetch for that term; likewise for the director facet. -/
theorem C5_witness :
    (applyEvent initState (Ev.setActorSearch "an")).2 = [] ∧
    (applyEvent initState (Ev.setActorSearch "ann")).2
      = [Req.persons .actors "ann" 1 false] ∧
    (applyEvent initState (Ev.setDirectorSearch "an")).2 = [] ∧
    (applyEvent initState (Ev.setDirectorSearch "ann")).2
      = [Req.persons .directors "ann" 1 false] :=
  ⟨(((C5_lazy_search initState "an").1 (by decide)).1 (by decide)).1,
   ((C5_lazy_search initState "ann").1 (by decide)).2 (by decide),
   (((C5_lazy_search initState "an").2.1 (by decide)).1 (by decide)).1,
   ((C5_lazy_search initState "ann").2.1 (by decide)).2 (by decide)⟩

/-- C9.  `reset()` leaves every already-loaded facet option list — and its
pagination bookkeeping — exactly as it was (genre and country lists, pages
and has-more flags, and likewise the person lists), clears only the selected
ids and the search strings, and refetches no facet: every request it issues
is a movie request. -/
theorem C9_reset_preserves_options (s : AppState) :
    (applyEvent s Ev.reset).1.genres = s.genres ∧
    (applyEvent s Ev.reset).1.countries = s.countries ∧
    (applyEvent s Ev.reset).1.genrePage = s.genrePage ∧
    (applyEvent s Ev.reset).1.countryPage = s.countryPage ∧
    (applyEvent s Ev.reset).1.hasMoreGenres = s.hasMoreGenres ∧
    (applyEvent s Ev.reset).1.hasMoreCountries = s.hasMoreCountries ∧
    (applyEvent s Ev.reset).1.actors = s.actors ∧
    (applyEvent s Ev.reset).1.directors = s.directors ∧
    (applyEvent s Ev.reset).1.actorPage = s.actorPage ∧
    (applyEvent s Ev.reset).1.directorPage = s.directorPage ∧
    (applyEvent s Ev.reset).1.hasMoreActors = s.hasMoreActors ∧
    (applyEvent s Ev.reset).1.hasMoreDirectors = s.hasMoreDirectors ∧
    (applyEvent s Ev.reset).1.selectedGenre = none ∧
    (applyEvent s Ev.reset).1.selectedCountry = none ∧
    (applyEvent s Ev.reset).1.selectedYear = none ∧
    (applyEvent s Ev.reset).1.selectedActor = none ∧
    (applyEvent s Ev.reset).1.selectedDirector = none ∧
    (applyEvent s Ev.reset).1.search = "" ∧
    (applyEvent s Ev.reset).1.actorSearch = "" ∧
    (applyEvent s Ev.reset).1.directorSearch = "" ∧
    (applyEvent s Ev.reset).2.all Req.isMovies = true := by
  refine ⟨rfl, rfl, rfl, rfl, rfl, rfl, rfl, rfl, rfl, rfl, rfl, rfl, rfl, rfl, rfl,
    rfl, rfl, rfl, rfl, rfl, ?_⟩
  simp only [applyEvent, effectReqs, fetchPersonsReqs_empty, ite_self, List.all_cons,
    List.all_append]
  split_ifs <;> simp [Req.isMovies]

/-- C10.  Selecting an option in a lazy-search dropdown, and closing a lazy
dropdown by outside click, reset that facet's search term to the empty
string; the empty term is below the 3-character threshold, so the facet
issues no fetch (selecting still triggers the movie refetch — every request
issued is a movie request; closing issues nothing at all) and the facet's
loaded options and has-more flag are unchanged.  Outside-click on a
dropdown without a search callback is a pure no-op. -/
theorem C10_term_clear_no_fetch (s : AppState) (i : Nat) :
    ((applyEvent s (Ev.selectActor i)).1.actorSearch = "" ∧
     (applyEvent s (Ev.selectActor i)).1.actors = s.actors ∧
     (applyEvent s (Ev.selectActor i)).1.hasMoreActors = s.hasMoreActors ∧
     (applyEvent s (Ev.selectActor i)).2.all Req.isMovies = true) ∧
    ((applyEvent s (Ev.selectDirector i)).1.directorSearch = "" ∧
     (applyEvent s (Ev.selectDirector i)).1.directors = s.directors ∧
     (applyEvent s (Ev.selectDirector i)).1.hasMoreDirectors = s.hasMoreDirectors ∧
     (applyEvent s (Ev.selectDirector i)).2.all Req.isMovies = true) ∧
    ((applyEvent s Ev.closeActorDropdown).1.actorSearch = "" ∧
     (applyEvent s Ev.closeActorDropdown).1.actors = s.actors ∧
     (applyEvent s Ev.closeActorDropdown).1.hasMoreActors = s.hasMoreActors ∧
     (applyEvent s Ev.closeActorDropdown).2 = []) ∧
    ((applyEvent s Ev.closeDirectorDropdown).1.directorSearch = "" ∧
     (applyEvent s Ev.closeDirectorDropdown).1.directors = s.directors ∧
     (applyEvent s Ev.closeDirectorDropdown).1.hasMoreDirectors = s.hasMoreDirectors ∧
     (applyEvent s Ev.closeDirectorDropdown).2 = []) ∧
    applyEvent s Ev.closeEagerDropdown = (s, []) := by
  refine ⟨⟨rfl, rfl, rfl, ?_⟩, ⟨rfl, rfl, rfl, ?_⟩, ⟨rfl, rfl, rfl, ?_⟩,
    ⟨rfl, rfl, rfl, ?_⟩, rfl⟩ <;>
    · simp only [applyEvent, effectReqs, fetchPersonsReqs_empty, ite_self,
        List.all_append, movieDeps]
      split_ifs <;> simp [Req.isMovies]
